import Mathlib

/-!
Verification of the ExoMind core (graph indexing, hybrid recall, cache
doctor, note lifecycle) against its specification. The core `exom` CLI
implementation (src/main.rs, with the legacy src/exomind/cli.py) is not part
of the staged sources, so the core operations are modelled from the
specification text; the web landing page (src/web/app/page.tsx) and the
bootstrap script (src/scripts/bootstrap.sh) are embedded from their sources.
-/

namespace ExoMind

/-! ## Data model (spec section 3) -/

/-- Modelled from the spec: a typed directed edge declaration embedded in a
note, `TYPE(from->to)[confidence]`, with `confidence` in [0,1]. The parsing
code lives in the missing src/main.rs. -/
structure Relation where
  relation_type : String
  fromId : String
  toId : String
  confidence : ℚ
deriving Repr, DecidableEq

/-- Modelled from the spec: a parsed source document as produced by the Note
Store Reader of the missing src/main.rs. -/
structure Note where
  id : String
  path : List String
  title : String
  body : String
  tags : List String
  relations : List Relation
deriving Repr, DecidableEq

/-- Modelled from the spec: one adjacency entry `(neighbor_id, relation_type,
confidence)` of a graph node; the graph structures live in the missing
src/main.rs. -/
structure Edge where
  neighbor : String
  relation_type : String
  confidence : ℚ
deriving Repr, DecidableEq

/-- Modelled from the spec: the unit of retrieval, one node per indexed note,
with normalized terms and both adjacency lists. -/
structure Node where
  id : String
  terms : List String
  out_edges : List Edge
  in_edges : List Edge
deriving Repr, DecidableEq

/-- Modelled from the spec: the aggregate graph, a mapping from node id to
node plus metadata, as persisted to the cache file by the missing
src/main.rs. -/
structure Graph where
  nodes : List Node
  generated_at : Nat
  notes_root : String
  note_count : Nat
  node_count : Nat
  edge_count : Nat
deriving Repr, DecidableEq

/-! ## Tokenization (spec section 4.1 and 4.3) -/

/-- Modelled from the spec: accumulate maximal alphanumeric runs into tokens;
helper of `tokenize`. -/
def splitTokens : List Char → List Char → List String
  | [], acc => if acc.isEmpty then [] else [String.mk acc.reverse]
  | c :: cs, acc =>
      if c.isAlphanum then splitTokens cs (c :: acc)
      else (if acc.isEmpty then [] else [String.mk acc.reverse]) ++ splitTokens cs []

/-- Modelled from the spec: case-folded alphanumeric tokenization, shared by
note indexing and query processing in the missing src/main.rs. -/
def tokenize (s : String) : List String := splitTokens (s.data.map Char.toLower) []

/-! ## Cache serialization (spec sections 3 and 6): the cache file is a
structured JSON document holding the serialized graph. -/

/-- Modelled from the spec: the structured cache document written to
`.neural/graph.json` by the missing src/main.rs, as a JSON-like tree. -/
inductive Json where
  | jstr (s : String)
  | jnum (q : ℚ)
  | jnat (n : Nat)
  | jarr (items : List Json)
  | jobj (fields : List (String × Json))
deriving Repr

/-- Modelled from the spec: serialize one adjacency entry. -/
def serializeEdge (e : Edge) : Json :=
  .jobj [("neighbor", .jstr e.neighbor), ("type", .jstr e.relation_type),
         ("confidence", .jnum e.confidence)]

/-- Modelled from the spec: decode one adjacency entry; any other shape is a
schema mismatch. -/
def deserializeEdge : Json → Option Edge
  | .jobj [("neighbor", .jstr nb), ("type", .jstr t), ("confidence", .jnum c)] =>
      some ⟨nb, t, c⟩
  | _ => none

/-- Modelled from the spec: decode a string leaf. -/
def decodeStr : Json → Option String
  | .jstr s => some s
  | _ => none

/-- Modelled from the spec: decode every item of an array, failing if any
item fails. -/
def decodeAll (f : Json → Option α) : List Json → Option (List α)
  | [] => some []
  | j :: js =>
      match f j, decodeAll f js with
      | some a, some rest => some (a :: rest)
      | _, _ => none

/-- Modelled from the spec: serialize one node with its terms and both
adjacency lists. -/
def serializeNode (nd : Node) : Json :=
  .jobj [("id", .jstr nd.id),
         ("terms", .jarr (nd.terms.map Json.jstr)),
         ("out_edges", .jarr (nd.out_edges.map serializeEdge)),
         ("in_edges", .jarr (nd.in_edges.map serializeEdge))]

/-- Modelled from the spec: decode one node. -/
def deserializeNode : Json → Option Node
  | .jobj [("id", .jstr i), ("terms", .jarr ts),
           ("out_edges", .jarr os), ("in_edges", .jarr ie)] =>
      match decodeAll decodeStr ts, decodeAll deserializeEdge os,
            decodeAll deserializeEdge ie with
      | some terms, some outs, some ins => some ⟨i, terms, outs, ins⟩
      | _, _, _ => none
  | _ => none

/-- Modelled from the spec: serialize a graph with its metadata to the cache
document (spec section 6, cache file interface). -/
def serialize (g : Graph) : Json :=
  .jobj [("nodes", .jarr (g.nodes.map serializeNode)),
         ("generated_at", .jnat g.generated_at),
         ("notes_root", .jstr g.notes_root),
         ("note_count", .jnat g.note_count),
         ("node_count", .jnat g.node_count),
         ("edge_count", .jnat g.edge_count)]

/-- Modelled from the spec: read a cache document back into a graph; any
other shape is a schema mismatch the doctor reports. -/
def deserialize : Json → Option Graph
  | .jobj [("nodes", .jarr ns), ("generated_at", .jnat ga), ("notes_root", .jstr nr),
           ("note_count", .jnat nc), ("node_count", .jnat dc), ("edge_count", .jnat ec)] =>
      match decodeAll deserializeNode ns with
      | some nodes => some ⟨nodes, ga, nr, nc, dc, ec⟩
      | none => none
  | _ => none

lemma deserializeEdge_serializeEdge (e : Edge) : deserializeEdge (serializeEdge e) = some e := rfl

lemma decodeAll_map_of_inverse {α : Type} (f : Json → Option α) (s : α → Json)
    (h : ∀ a, f (s a) = some a) (l : List α) : decodeAll f (l.map s) = some l := by
  induction l with
  | nil => rfl
  | cons a rest ih => simp [decodeAll, h a, ih]

lemma deserializeNode_serializeNode (nd : Node) :
    deserializeNode (serializeNode nd) = some nd := by
  cases nd with
  | mk i terms outs ins =>
      simp [serializeNode, deserializeNode,
        decodeAll_map_of_inverse decodeStr Json.jstr (fun _ => rfl),
        decodeAll_map_of_inverse deserializeEdge serializeEdge deserializeEdge_serializeEdge]

/-- Shared round-trip fact: deserializing a serialized graph recovers it. -/
lemma deserialize_serialize_eq (g : Graph) : deserialize (serialize g) = some g := by
  cases g with
  | mk nodes ga nr nc dc ec =>
      simp [serialize, deserialize,
        decodeAll_map_of_inverse deserializeNode serializeNode deserializeNode_serializeNode]

/-- C1: for every graph g, serializing g to the cache document and
deserializing it back yields exactly g, with no loss of nodes, edges, or
metadata. -/
theorem cache_roundtrip (g : Graph) : deserialize (serialize g) = some g :=
  deserialize_serialize_eq g

/-! ## Graph builder (spec section 4.2) -/

/-- Modelled from the spec: the node ids known to the indexer, one per note
(algorithm step 2 of build in the missing src/main.rs). -/
def noteIds (notes : List Note) : List String := notes.map Note.id

/-- Modelled from the spec: whether both endpoints of a relation resolve
against the known node ids (algorithm step 3 of build). -/
def resolves (ids : List String) (r : Relation) : Bool :=
  ids.contains r.fromId && ids.contains r.toId

/-- Modelled from the spec: the accepted (non-dangling) relation instances
across all notes, in note order; a relation with an unresolved endpoint is
recorded as a dangling-edge warning and contributes no edge. -/
def acceptedRels (notes : List Note) : List Relation :=
  (notes.map fun n => n.relations.filter (resolves (noteIds notes))).flatten

/-- Modelled from the spec: build one node from a note: terms from
title+body, and both adjacency lists from the accepted relations whose
endpoint is this note. -/
def buildNode (notes : List Note) (n : Note) : Node :=
  let acc := acceptedRels notes
  { id := n.id
    terms := tokenize (n.title ++ " " ++ n.body)
    out_edges := (acc.filter fun r => r.fromId == n.id).map fun r =>
      ⟨r.toId, r.relation_type, r.confidence⟩
    in_edges := (acc.filter fun r => r.toId == n.id).map fun r =>
      ⟨r.fromId, r.relation_type, r.confidence⟩ }

/-- Modelled from the spec: `build(notes_root) -> Graph`: one node per note,
accepted relations become edges in both adjacency lists, and the final
counts are computed from the built structure (algorithm steps 2 to 4 of the
missing src/main.rs indexer). -/
def build (root : String) (notes : List Note) : Graph :=
  let ns := notes.map (buildNode notes)
  { nodes := ns
    generated_at := 0
    notes_root := root
    note_count := notes.length
    node_count := ns.length
    edge_count := (ns.map fun nd => nd.out_edges.length).sum }

lemma sum_indicator_eq_one {x : String} : ∀ {ids : List String},
    ids.Nodup → x ∈ ids → ((ids.map fun i => if x = i then 1 else 0).sum = 1) := by
  intro ids
  induction ids with
  | nil => intro _ hx; cases hx
  | cons i rest ih =>
      intro hd hx
      rcases List.mem_cons.mp hx with h | h
      · subst h
        have hnot : x ∉ rest := (List.nodup_cons.mp hd).1
        have hz : ((rest.map fun i => if x = i then 1 else 0).sum = 0) := by
          rw [List.sum_eq_zero]
          intro y hy
          rcases List.mem_map.mp hy with ⟨j, hj, hje⟩
          have hxj : x ≠ j := fun he => hnot (he ▸ hj)
          simp [← hje, hxj]
        simp [hz]
      · have hne : x ≠ i := fun he => (List.nodup_cons.mp hd).1 (he ▸ h)
        simp [hne, ih (List.nodup_cons.mp hd).2 h]

lemma sum_filter_key_eq_length {key : Relation → String} :
    ∀ (l : List Relation) (ids : List String), ids.Nodup → (∀ r ∈ l, key r ∈ ids) →
      ((ids.map fun i => (l.filter fun r => key r == i).length).sum = l.length) := by
  intro l
  induction l with
  | nil => intro ids _ _; simp
  | cons r rest ih =>
      intro ids hd hmem
      have hsplit : ∀ i : String,
          ((r :: rest).filter fun s => key s == i).length
            = (if key r = i then 1 else 0) + ((rest.filter fun s => key s == i).length) := by
        intro i
        by_cases h : key r = i
        · simp [List.filter_cons, h, Nat.add_comm]
        · simp [List.filter_cons, h]
      calc ((ids.map fun i => ((r :: rest).filter fun s => key s == i).length).sum)
          = ((ids.map fun i =>
              (if key r = i then 1 else 0) + ((rest.filter fun s => key s == i).length)).sum) := by
            apply congrArg
            exact List.map_congr_left fun i _ => hsplit i
        _ = ((ids.map fun i => if key r = i then 1 else 0).sum)
              + ((ids.map fun i => (rest.filter fun s => key s == i).length).sum) := by
            rw [List.sum_map_add]
        _ = 1 + rest.length := by
            rw [sum_indicator_eq_one hd (hmem r (List.mem_cons_self r rest)),
              ih ids hd fun s hs => hmem s (List.mem_cons_of_mem r hs)]
        _ = (r :: rest).length := by simp [Nat.add_comm]

lemma acceptedRels_fromId_mem (notes : List Note) :
    ∀ r ∈ acceptedRels notes, r.fromId ∈ noteIds notes := by
  intro r hr
  rcases List.mem_flatten.mp hr with ⟨l, hl, hrl⟩
  rcases List.mem_map.mp hl with ⟨n, _, hln⟩
  have hres := List.of_mem_filter (hln ▸ hrl)
  have hfrom : (noteIds notes).contains r.fromId = true :=
    ((Bool.and_eq_true _ _).mp hres).1
  simpa using hfrom

/-- Shared counting fact: the built graph's metadata counts agree with the
corpus: one node per note, and one edge per accepted relation. -/
lemma build_counts_eq (root : String) (notes : List Note)
    (hids : (noteIds notes).Nodup) :
    (build root notes).node_count = (build root notes).note_count ∧
    (build root notes).note_count = notes.length ∧
    (build root notes).edge_count = (acceptedRels notes).length := by
  refine ⟨by simp [build], rfl, ?_⟩
  show ((notes.map (buildNode notes)).map fun nd => nd.out_edges.length).sum
      = (acceptedRels notes).length
  have hmap : ((notes.map (buildNode notes)).map fun nd => nd.out_edges.length)
      = (noteIds notes).map fun i =>
          ((acceptedRels notes).filter fun r => r.fromId == i).length := by
    rw [noteIds, List.map_map, List.map_map]
    exact List.map_congr_left fun n _ => by simp [buildNode]
  rw [hmap]
  exact sum_filter_key_eq_length (acceptedRels notes) (noteIds notes) hids
    (acceptedRels_fromId_mem notes)

/-- C2: for every corpus with distinct note ids, the graph produced by build
satisfies node_count = note_count (one node per note) and edge_count equals
the number of accepted, non-dangling relation instances across all notes. -/
theorem build_count_invariants (root : String) (notes : List Note)
    (hids : (noteIds notes).Nodup) :
    (build root notes).node_count = (build root notes).note_count ∧
    (build root notes).note_count = notes.length ∧
    (build root notes).edge_count = (acceptedRels notes).length :=
  build_counts_eq root notes hids

/-- Witness for C2 at a concrete two-note corpus with one accepted relation
and one dangling relation. -/
theorem build_count_invariants_witness :
    (build "root" [⟨"a", [], "A", "alpha", [], [⟨"RELATES_TO", "a", "b", 9/10⟩]⟩,
                   ⟨"b", [], "B", "beta", [], [⟨"CAUSED_BY", "b", "missing", 1/2⟩]⟩]).node_count
      = (build "root" [⟨"a", [], "A", "alpha", [], [⟨"RELATES_TO", "a", "b", 9/10⟩]⟩,
                       ⟨"b", [], "B", "beta", [], [⟨"CAUSED_BY", "b", "missing", 1/2⟩]⟩]).note_count
    ∧ (build "root" [⟨"a", [], "A", "alpha", [], [⟨"RELATES_TO", "a", "b", 9/10⟩]⟩,
                     ⟨"b", [], "B", "beta", [], [⟨"CAUSED_BY", "b", "missing", 1/2⟩]⟩]).note_count
      = 2
    ∧ (build "root" [⟨"a", [], "A", "alpha", [], [⟨"RELATES_TO", "a", "b", 9/10⟩]⟩,
                     ⟨"b", [], "B", "beta", [], [⟨"CAUSED_BY", "b", "missing", 1/2⟩]⟩]).edge_count
      = (acceptedRels [⟨"a", [], "A", "alpha", [], [⟨"RELATES_TO", "a", "b", 9/10⟩]⟩,
                       ⟨"b", [], "B", "beta", [], [⟨"CAUSED_BY", "b", "missing", 1/2⟩]⟩]).length := by
  have h := build_count_invariants "root"
    [⟨"a", [], "A", "alpha", [], [⟨"RELATES_TO", "a", "b", 9/10⟩]⟩,
     ⟨"b", [], "B", "beta", [], [⟨"CAUSED_BY", "b", "missing", 1/2⟩]⟩] (by decide)
  exact ⟨h.1, h.2.1, h.2.2⟩

/-! ## Hybrid recall engine (spec section 4.3) -/

/-- Modelled from the spec: lexical overlap between query tokens and node
terms, the count of query tokens present among the terms (missing
src/main.rs recall scoring, step 2). -/
def lexOverlap (q : List String) (terms : List String) : Nat :=
  (q.filter fun t => terms.contains t).length

/-- Modelled from the spec: the lexical score, overlap count divided by the
query token count, bounded in [0,1]; zero for an empty query. -/
def lexScore (q : List String) (nd : Node) : ℚ :=
  if q.length = 0 then 0 else (lexOverlap q nd.terms : ℚ) / (q.length : ℚ)

/-- Modelled from the spec: look a node up by id in the loaded graph. -/
def findNode (g : Graph) (i : String) : Option Node :=
  g.nodes.find? fun nd => nd.id == i

/-- Modelled from the spec: the distinct neighbor ids of a node, via both
adjacency lists. -/
def neighborIds (nd : Node) : List String :=
  (nd.out_edges.map Edge.neighbor ++ nd.in_edges.map Edge.neighbor).eraseDups

/-- Modelled from the spec: whether a neighbor id resolves to a node with
positive lexical overlap with the query. -/
def relevantNeighbor (g : Graph) (q : List String) (i : String) : Bool :=
  match findNode g i with
  | some m => decide (0 < lexOverlap q m.terms)
  | none => false

/-- Modelled from the spec: the structural score, the number of distinct
neighbor nodes that also have positive lexical overlap with the query
(missing src/main.rs recall scoring, step 3). -/
def structScore (g : Graph) (q : List String) (nd : Node) : ℚ :=
  (((neighborIds nd).filter (relevantNeighbor g q)).length : ℚ)

/-- Modelled from the spec: the tunable lexical weight of the combined
score. -/
def wLex : ℚ := 7 / 10

/-- Modelled from the spec: the tunable structural weight of the combined
score. -/
def wStruct : ℚ := 3 / 10

/-- Modelled from the spec: the combined score, a weighted sum of the
lexical and structural components (missing src/main.rs recall scoring,
step 4). -/
def combinedScore (lex structural : ℚ) : ℚ := wLex * lex + wStruct * structural

/-- Modelled from the spec: the combined score of one node against a
query. -/
def score (g : Graph) (q : List String) (nd : Node) : ℚ :=
  combinedScore (lexScore q nd) (structScore g q nd)

/-- Modelled from the spec: the scored candidates; a node with zero combined
score (zero lexical overlap and zero structural support) is excluded, not
merely scored at zero. -/
def candidates (g : Graph) (q : List String) : List (String × ℚ) :=
  (g.nodes.filter fun nd => score g q nd != 0).map fun nd => (nd.id, score g q nd)

/-- Modelled from the spec: the deterministic candidate comparator, combined
score descending with ties broken by node id ascending (missing src/main.rs
recall, step 5). -/
def candLE (a b : String × ℚ) : Bool :=
  decide (b.2 < a.2) || (decide (a.2 = b.2) && decide (a.1 ≤ b.1))

/-- Modelled from the spec: candidates sorted by the deterministic
comparator. -/
def sortedCandidates (g : Graph) (q : List String) : List (String × ℚ) :=
  (candidates g q).mergeSort candLE

/-- Modelled from the spec: query tokenization, identical to note
tokenization, with duplicate query tokens collapsed. -/
def queryTokens (query : String) : List String := (tokenize query).eraseDups

/-- Modelled from the spec: `recall(graph, query, top_k)`: a non-positive
top_k is a usage error rejected up front; otherwise the first top_k sorted
candidates are returned (missing src/main.rs recall, steps 1 to 6). -/
def «recall» (g : Graph) (query : String) (top_k : Int) :
    Except String (List (String × ℚ)) :=
  if top_k ≤ 0 then Except.error "usage error: top_k must be at least 1"
  else Except.ok ((sortedCandidates g (queryTokens query)).take top_k.toNat)

/-! ### Score lemmas -/

lemma lexOverlap_append (q : List String) (t : String) (terms : List String) :
    lexOverlap (q ++ [t]) terms
      = lexOverlap q terms + (if terms.contains t then 1 else 0) := by
  by_cases h : t ∈ terms
  · simp [lexOverlap, List.filter_append, List.filter_cons, h]
  · simp [lexOverlap, List.filter_append, List.filter_cons, h]

lemma lexOverlap_le_length (q : List String) (terms : List String) :
    lexOverlap q terms ≤ q.length :=
  List.length_filter_le _ _

lemma lexOverlap_le_append (q : List String) (t : String) (terms : List String) :
    lexOverlap q terms ≤ lexOverlap (q ++ [t]) terms := by
  rw [lexOverlap_append]
  exact Nat.le_add_right _ _

lemma lexScore_nonneg (q : List String) (nd : Node) : 0 ≤ lexScore q nd := by
  unfold lexScore
  split
  · exact le_refl 0
  · positivity

lemma lexScore_le_append_of_mem {t : String} {nd : Node} (q : List String)
    (h : nd.terms.contains t = true) : lexScore q nd ≤ lexScore (q ++ [t]) nd := by
  rcases Nat.eq_zero_or_pos q.length with hq | hq
  · have h0 : lexScore q nd = 0 := by unfold lexScore; rw [if_pos hq]
    rw [h0]
    exact lexScore_nonneg _ _
  · unfold lexScore
    have hq1 : ¬ q.length = 0 := Nat.pos_iff_ne_zero.mp hq
    have hq2 : ¬ (q ++ [t]).length = 0 := by simp
    rw [if_neg hq1, if_neg hq2]
    have hov : lexOverlap (q ++ [t]) nd.terms = lexOverlap q nd.terms + 1 := by
      rw [lexOverlap_append, h]
      simp
    have hlen : (q ++ [t]).length = q.length + 1 := by simp
    rw [hov, hlen]
    have hle : (lexOverlap q nd.terms : ℚ) ≤ (q.length : ℚ) := by
      exact_mod_cast lexOverlap_le_length q nd.terms
    have h0 : (0 : ℚ) < (q.length : ℚ) := by exact_mod_cast hq
    rw [div_le_div_iff₀ h0 (by push_cast; linarith)]
    push_cast
    nlinarith

lemma lexScore_append_le_of_not_mem {t : String} {nd : Node} (q : List String)
    (h : nd.terms.contains t = false) : lexScore (q ++ [t]) nd ≤ lexScore q nd := by
  unfold lexScore
  have hov : lexOverlap (q ++ [t]) nd.terms = lexOverlap q nd.terms := by
    rw [lexOverlap_append, h]
    simp
  rcases Nat.eq_zero_or_pos q.length with hq | hq
  · have hq0 : q = [] := List.length_eq_zero.mp hq
    subst hq0
    simp [lexOverlap] at hov ⊢
    simp [hov, h]
  · have hq1 : ¬ q.length = 0 := Nat.pos_iff_ne_zero.mp hq
    have hq2 : ¬ (q ++ [t]).length = 0 := by simp
    rw [if_neg hq1, if_neg hq2, hov, List.length_append]
    have hovn : (0 : ℚ) ≤ (lexOverlap q nd.terms : ℚ) := by positivity
    have h0 : (0 : ℚ) < (q.length : ℚ) := by exact_mod_cast hq
    rw [div_le_div_iff₀ (by push_cast; linarith) h0]
    push_cast
    nlinarith

lemma relevantNeighbor_mono (g : Graph) (q : List String) (t : String) (i : String)
    (h : relevantNeighbor g q i = true) : relevantNeighbor g (q ++ [t]) i = true := by
  unfold relevantNeighbor at h ⊢
  cases hf : findNode g i with
  | none => rw [hf] at h; exact absurd h (by simp)
  | some m =>
      rw [hf] at h
      have hpos : 0 < lexOverlap q m.terms := of_decide_eq_true h
      have : 0 < lexOverlap (q ++ [t]) m.terms :=
        Nat.lt_of_lt_of_le hpos (lexOverlap_le_append q t m.terms)
      exact decide_eq_true this

lemma structScore_nonneg (g : Graph) (q : List String) (nd : Node) :
    0 ≤ structScore g q nd := by
  unfold structScore
  positivity

lemma structScore_le_append (g : Graph) (q : List String) (t : String) (nd : Node) :
    structScore g q nd ≤ structScore g (q ++ [t]) nd := by
  unfold structScore
  have hsub := List.monotone_filter_right (neighborIds nd)
    (fun i => relevantNeighbor_mono g q t i)
  exact_mod_cast hsub.length_le

lemma structScore_append_eq_of_untouched (g : Graph) (q : List String) (t : String)
    (nd : Node)
    (h : ∀ i ∈ neighborIds nd, ∀ m, findNode g i = some m → m.terms.contains t = false) :
    structScore g (q ++ [t]) nd = structScore g q nd := by
  unfold structScore
  congr 1
  apply congrArg
  apply List.filter_congr
  intro i hi
  unfold relevantNeighbor
  cases hf : findNode g i with
  | none => rfl
  | some m =>
      have hov : lexOverlap (q ++ [t]) m.terms = lexOverlap q m.terms := by
        rw [lexOverlap_append, h i hi m hf]
        simp
      show decide (0 < lexOverlap (q ++ [t]) m.terms)
          = decide (0 < lexOverlap q m.terms)
      rw [hov]

lemma combinedScore_mono_lex {l1 l2 s : ℚ} (h : l1 ≤ l2) :
    combinedScore l1 s ≤ combinedScore l2 s := by
  unfold combinedScore wLex wStruct
  nlinarith

lemma combinedScore_mono_struct {s1 s2 l : ℚ} (h : s1 ≤ s2) :
    combinedScore l s1 ≤ combinedScore l s2 := by
  unfold combinedScore wLex wStruct
  nlinarith

lemma score_rank_stable (g : Graph) (q : List String) (t : String) (a b : Node)
    (ha : a.terms.contains t = true) (hb : b.terms.contains t = false)
    (hbn : ∀ i ∈ neighborIds b, ∀ m, findNode g i = some m → m.terms.contains t = false)
    (hle : score g q b ≤ score g q a) :
    score g (q ++ [t]) b ≤ score g (q ++ [t]) a := by
  unfold score at hle ⊢
  calc combinedScore (lexScore (q ++ [t]) b) (structScore g (q ++ [t]) b)
      ≤ combinedScore (lexScore q b) (structScore g (q ++ [t]) b) :=
        combinedScore_mono_lex (lexScore_append_le_of_not_mem q hb)
    _ = combinedScore (lexScore q b) (structScore g q b) := by
        rw [structScore_append_eq_of_untouched g q t b hbn]
    _ ≤ combinedScore (lexScore q a) (structScore g q a) := hle
    _ ≤ combinedScore (lexScore (q ++ [t]) a) (structScore g q a) :=
        combinedScore_mono_lex (lexScore_le_append_of_mem q ha)
    _ ≤ combinedScore (lexScore (q ++ [t]) a) (structScore g (q ++ [t]) a) :=
        combinedScore_mono_struct (structScore_le_append g q t a)

/-- C3: the combined recall score is monotone in each component: raising the
lexical score at fixed structural score, or the structural score at fixed
lexical score, never lowers the combined score; and adding a query token
that appears only in node a's terms (not in node b's terms nor in the terms
of any of b's resolved neighbors) never lowers a's score order relative to
b. -/
theorem combined_score_monotone :
    (∀ l1 l2 s : ℚ, l1 ≤ l2 → combinedScore l1 s ≤ combinedScore l2 s) ∧
    (∀ s1 s2 l : ℚ, s1 ≤ s2 → combinedScore l s1 ≤ combinedScore l s2) ∧
    (∀ (g : Graph) (q : List String) (t : String) (a b : Node),
      a.terms.contains t = true → b.terms.contains t = false →
      (∀ i ∈ neighborIds b, ∀ m, findNode g i = some m → m.terms.contains t = false) →
      score g q b ≤ score g q a → score g (q ++ [t]) b ≤ score g (q ++ [t]) a) :=
  ⟨fun _ _ _ h => combinedScore_mono_lex h,
   fun _ _ _ h => combinedScore_mono_struct h,
   fun g q t a b ha hb hbn hle => score_rank_stable g q t a b ha hb hbn hle⟩

/-! ### Recall result shape, determinism and validation -/

lemma score_zero_of_zero (g : Graph) (q : List String) (nd : Node)
    (h1 : lexOverlap q nd.terms = 0) (h2 : structScore g q nd = 0) :
    score g q nd = 0 := by
  unfold score combinedScore lexScore
  rw [h2]
  split
  · simp
  · rw [h1]
    simp

/-- C4: for every graph, query, and top_k at least 1, recall returns the
first top_k sorted candidates; every returned entry comes from a node with
nonzero lexical overlap or nonzero structural support, and when fewer than
top_k candidates have nonzero score, exactly those candidates are returned
with no zero-score padding. -/
theorem recall_excludes_zero_scores (g : Graph) (query : String) (k : Int)
    (hk : 1 ≤ k) :
    ∃ r, «recall» g query k = Except.ok r ∧
      (∀ p ∈ r, ∃ nd, nd ∈ g.nodes ∧ nd.id = p.1 ∧
        ¬(lexOverlap (queryTokens query) nd.terms = 0 ∧
          structScore g (queryTokens query) nd = 0)) ∧
      r = (sortedCandidates g (queryTokens query)).take k.toNat ∧
      ((sortedCandidates g (queryTokens query)).length ≤ k.toNat →
        r = sortedCandidates g (queryTokens query)) := by
  have hnk : ¬ k ≤ 0 := by omega
  refine ⟨(sortedCandidates g (queryTokens query)).take k.toNat, ?_, ?_, rfl, ?_⟩
  · simp [«recall», hnk]
  · intro p hp
    have hps : p ∈ sortedCandidates g (queryTokens query) := List.mem_of_mem_take hp
    have hpc : p ∈ candidates g (queryTokens query) :=
      (List.mergeSort_perm (candidates g (queryTokens query)) candLE).subset hps
    rcases List.mem_map.mp hpc with ⟨nd, hndf, hpe⟩
    have hnd : nd ∈ g.nodes := List.mem_of_mem_filter hndf
    have hscore := List.of_mem_filter hndf
    refine ⟨nd, hnd, ?_, ?_⟩
    · rw [← hpe]
    · rintro ⟨h1, h2⟩
      rw [score_zero_of_zero g (queryTokens query) nd h1 h2] at hscore
      simp at hscore
  · intro hlen
    exact List.take_of_length_le hlen

/-- Witness for C4 at the empty graph, the query alpha and top_k 1. -/
theorem recall_excludes_zero_scores_witness :
    ∃ r, «recall» ⟨[], 0, "", 0, 0, 0⟩ "alpha" 1 = Except.ok r ∧
      (∀ p ∈ r, ∃ nd, nd ∈ (Graph.mk [] 0 "" 0 0 0).nodes ∧ nd.id = p.1 ∧
        ¬(lexOverlap (queryTokens "alpha") nd.terms = 0 ∧
          structScore ⟨[], 0, "", 0, 0, 0⟩ (queryTokens "alpha") nd = 0)) ∧
      r = (sortedCandidates ⟨[], 0, "", 0, 0, 0⟩ (queryTokens "alpha")).take (1 : Int).toNat ∧
      ((sortedCandidates ⟨[], 0, "", 0, 0, 0⟩ (queryTokens "alpha")).length ≤ (1 : Int).toNat →
        r = sortedCandidates ⟨[], 0, "", 0, 0, 0⟩ (queryTokens "alpha")) :=
  recall_excludes_zero_scores ⟨[], 0, "", 0, 0, 0⟩ "alpha" 1 (le_refl 1)

/-- The deterministic candidate order as a relation: combined score
descending, ties broken by node id ascending. -/
def CandOrder (a b : String × ℚ) : Prop := b.2 < a.2 ∨ (a.2 = b.2 ∧ a.1 ≤ b.1)

lemma candLE_iff {a b : String × ℚ} : candLE a b = true ↔ CandOrder a b := by
  unfold candLE CandOrder
  simp

lemma candOrder_trans (a b c : String × ℚ) (h1 : CandOrder a b) (h2 : CandOrder b c) :
    CandOrder a c := by
  rcases h1 with h1 | ⟨he1, hi1⟩
  · rcases h2 with h2 | ⟨he2, hi2⟩
    · exact Or.inl (lt_trans h2 h1)
    · exact Or.inl (he2 ▸ h1)
  · rcases h2 with h2 | ⟨he2, hi2⟩
    · exact Or.inl (he1 ▸ h2)
    · exact Or.inr ⟨he1.trans he2, hi1.trans hi2⟩

lemma candOrder_total (a b : String × ℚ) : CandOrder a b ∨ CandOrder b a := by
  rcases lt_trichotomy a.2 b.2 with h | h | h
  · exact Or.inr (Or.inl h)
  · rcases le_total a.1 b.1 with hi | hi
    · exact Or.inl (Or.inr ⟨h, hi⟩)
    · exact Or.inr (Or.inr ⟨h.symm, hi⟩)
  · exact Or.inl (Or.inl h)

lemma candOrder_antisymm (a b : String × ℚ) (h1 : CandOrder a b) (h2 : CandOrder b a) :
    a = b := by
  rcases h1 with h1 | ⟨he1, hi1⟩
  · rcases h2 with h2 | ⟨he2, hi2⟩
    · exact absurd h1 (lt_asymm h2)
    · exact absurd h1 (he2 ▸ lt_irrefl a.2)
  · rcases h2 with h2 | ⟨he2, hi2⟩
    · exact absurd h2 (he1 ▸ lt_irrefl a.2)
    · exact Prod.ext (le_antisymm hi1 hi2) he1

instance : IsTrans (String × ℚ) CandOrder := ⟨candOrder_trans⟩

instance : IsTotal (String × ℚ) CandOrder := ⟨candOrder_total⟩

instance : IsAntisymm (String × ℚ) CandOrder := ⟨candOrder_antisymm⟩

lemma sortedCandidates_sorted (g : Graph) (q : List String) :
    (sortedCandidates g q).Sorted CandOrder := by
  have h := @List.sorted_mergeSort (String × ℚ) candLE
    (fun a b c hab hbc => candLE_iff.mpr (candOrder_trans a b c (candLE_iff.mp hab) (candLE_iff.mp hbc)))
    (fun a b => by
      rcases candOrder_total a b with h | h
      · simp [candLE_iff.mpr h]
      · simp [candLE_iff.mpr h])
    (candidates g q)
  exact h.imp fun hab => candLE_iff.mp hab

/-- C5: recall is deterministic: the same (g, q, k) always yields the same
ordered output, and the deterministic tie-break (combined score descending,
node id ascending) determines the candidate ordering uniquely: any sorted
permutation of the candidates is exactly the sorted candidate list. -/
theorem recall_deterministic :
    (∀ (g : Graph) (query : String) (k : Int),
      «recall» g query k = «recall» g query k) ∧
    (∀ (g : Graph) (q : List String) (l : List (String × ℚ)),
      l.Perm (candidates g q) → l.Sorted CandOrder → l = sortedCandidates g q) := by
  refine ⟨fun _ _ _ => rfl, fun g q l hp hs => ?_⟩
  exact List.eq_of_perm_of_sorted
    (hp.trans (List.mergeSort_perm (candidates g q) candLE).symm)
    hs (sortedCandidates_sorted g q)

/-- C8: a non-positive top_k is a usage error reported to the caller (never
silently clamped to a valid range), for every graph and query alike; while
an empty graph with a valid top_k yields an empty result, not an error. -/
theorem recall_topk_usage_error (g : Graph) (query : String) (k : Int) :
    (k ≤ 0 → «recall» g query k = Except.error "usage error: top_k must be at least 1") ∧
    (g.nodes = [] → 1 ≤ k → «recall» g query k = Except.ok []) := by
  constructor
  · intro h
    simp [«recall», h]
  · intro hg hk
    have hnk : ¬ k ≤ 0 := by omega
    have hc : candidates g (queryTokens query) = [] := by simp [candidates, hg]
    simp [«recall», hnk, sortedCandidates, hc]

/-! ## Cache validator (spec section 4.4) -/

/-- Modelled from the spec: the distinct problem kinds the doctor can report
(missing src/main.rs doctor). -/
inductive Problem where
  | cacheMissing
  | schemaUnrecognized
  | countMismatch (which : String)
  | danglingEdge (fromId toId : String)
  | staleFingerprint
deriving Repr, DecidableEq

/-- Modelled from the spec: the doctor report, ok iff no problems were
found. -/
structure Report where
  ok : Bool
  problems : List Problem
deriving Repr, DecidableEq

/-- Modelled from the spec: the node ids present in a loaded graph. -/
def nodeIdsOf (g : Graph) : List String := g.nodes.map Node.id

/-- Modelled from the spec: adjacency entries whose neighbor id resolves to
no node of the same graph. -/
def danglingEdgesOf (g : Graph) : List (String × String) :=
  (g.nodes.map fun nd =>
    ((nd.out_edges.filter fun e => !((nodeIdsOf g).contains e.neighbor)).map fun e =>
      (nd.id, e.neighbor)) ++
    ((nd.in_edges.filter fun e => !((nodeIdsOf g).contains e.neighbor)).map fun e =>
      (e.neighbor, nd.id))).flatten

/-- Modelled from the spec: the structural checks over a deserialized graph:
metadata counts against actual contents, dangling edges, and the notes_root
fingerprint. -/
def checkGraph (root : String) (g : Graph) : List Problem :=
  (if g.node_count = g.nodes.length then [] else [Problem.countMismatch "node_count"]) ++
  (if g.edge_count = (g.nodes.map fun nd => nd.out_edges.length).sum then []
   else [Problem.countMismatch "edge_count"]) ++
  ((danglingEdgesOf g).map fun p => Problem.danglingEdge p.1 p.2) ++
  (if g.notes_root = root then [] else [Problem.staleFingerprint])

/-- Modelled from the spec: `check(notes_root, cache_path) -> Report`: a
missing cache and an unrecognized schema are distinct problems; otherwise
the structural checks run and ok is true iff no problems were found. -/
def check (root : String) (cache : Option Json) : Report :=
  match cache with
  | none => ⟨false, [Problem.cacheMissing]⟩
  | some j =>
      match deserialize j with
      | none => ⟨false, [Problem.schemaUnrecognized]⟩
      | some g =>
          let ps := checkGraph root g
          ⟨ps.isEmpty, ps⟩

/-- C6: indexing a root with zero notes succeeds with note_count, node_count
and edge_count all zero, and running doctor against the resulting cache
reports ok = true. -/
theorem index_empty_root (root : String) :
    (build root []).note_count = 0 ∧ (build root []).node_count = 0 ∧
    (build root []).edge_count = 0 ∧
    (check root (some (serialize (build root [])))).ok = true := by
  refine ⟨rfl, rfl, rfl, ?_⟩
  rw [check, deserialize_serialize_eq (build root [])]
  simp [checkGraph, build, danglingEdgesOf]

/-! ## Lifecycle manager (spec section 4.5) -/

/-- Modelled from the spec: one on-disk note file as the lifecycle manager
sees it: its path (as segments), its age in days at the instant of the run,
its text, and the optional lifecycle marker `last_reviewed`/`decay_score`
(missing src/main.rs lifecycle). -/
structure NoteFile where
  path : List String
  age : Nat
  body : String
  marker : Option (Nat × ℚ)
deriving Repr, DecidableEq

/-- Modelled from the spec: the archive location, `99_Archives` (README
section 7, memory lifecycle housekeeping). -/
def archiveSeg : String := "99_Archives"

/-- Modelled from the spec: whether a path already lies under the archive
location. -/
def isArchived (p : List String) : Bool :=
  match p with
  | s :: _ => s == archiveSeg
  | [] => false

/-- Modelled from the spec: the archive destination `99_Archives/Inbox/...`,
preserving the relative path. -/
def archiveDest (p : List String) : List String := archiveSeg :: "Inbox" :: p

/-- Modelled from the spec: archive one note: a note already under the
archive location is left untouched, a young note is left in place, an old
note moves under the archive location preserving its relative path. -/
def archiveNote (thresholdDays : Nat) (f : NoteFile) : NoteFile :=
  if isArchived f.path then f
  else if f.age ≤ thresholdDays then f
  else { f with path := archiveDest f.path }

/-- Modelled from the spec: the archive transition over the whole note
set. -/
def archiveRun (thresholdDays : Nat) (files : List NoteFile) : List NoteFile :=
  files.map (archiveNote thresholdDays)

/-- Modelled from the spec: the deterministic decay score, monotonically
increasing in note age at fixed review time, bounded in [0,1). -/
def decayScore (age : Nat) : ℚ := (age : ℚ) / ((age : ℚ) + 30)

/-- Modelled from the spec: decay one note: write the
`last_reviewed`/`decay_score` marker, updating any existing marker in place
rather than appending a second one. -/
def decayNote (now : Nat) (f : NoteFile) : NoteFile :=
  { f with marker := some (now, decayScore f.age) }

/-- Modelled from the spec: the decay transition over the whole note set. -/
def decayRun (now : Nat) (files : List NoteFile) : List NoteFile :=
  files.map (decayNote now)

lemma isArchived_archiveDest (p : List String) : isArchived (archiveDest p) = true := by
  simp [isArchived, archiveDest]

lemma archiveNote_idem (t : Nat) (f : NoteFile) :
    archiveNote t (archiveNote t f) = archiveNote t f := by
  unfold archiveNote
  by_cases h1 : isArchived f.path = true
  · simp [h1]
  · by_cases h2 : f.age ≤ t
    · simp [h1, h2]
    · simp [h1, h2, isArchived_archiveDest]

lemma decayNote_idem (now : Nat) (f : NoteFile) :
    decayNote now (decayNote now f) = decayNote now f := rfl

/-- C7: the lifecycle transitions decay and archive are idempotent: with no
elapsed time, running either twice produces the same on-disk note set as
running it once; archive leaves a note already under the archive location
untouched, and decay never stacks a second marker with a different score
(the marker is updated in place). -/
theorem lifecycle_idempotent :
    (∀ (now : Nat) (files : List NoteFile),
      decayRun now (decayRun now files) = decayRun now files) ∧
    (∀ (thresholdDays : Nat) (files : List NoteFile),
      archiveRun thresholdDays (archiveRun thresholdDays files)
        = archiveRun thresholdDays files) ∧
    (∀ (thresholdDays : Nat) (f : NoteFile), isArchived f.path = true →
      archiveNote thresholdDays f = f) := by
  refine ⟨fun now files => ?_, fun t files => ?_, fun t f h => ?_⟩
  · rw [decayRun, decayRun, List.map_map]
    exact List.map_congr_left fun f _ => decayNote_idem now f
  · rw [archiveRun, archiveRun, List.map_map]
    exact List.map_congr_left fun f _ => archiveNote_idem t f
  · unfold archiveNote
    simp [h]

/-! ## Web landing page (src/web/app/page.tsx)

The exported Home component is embedded as a pure function into a React
element tree: tag name, attributes (className, href, target, rel, key) and
children, transcribed from the JSX of src/web/app/page.tsx. -/

/-- A rendered React element: a tagged element with attributes and children,
or a text node. -/
inductive El where
  | el (tag : String) (attrs : List (String × String)) (children : List El)
  | text (s : String)

mutual

/-- All text nodes of an element, in document order. -/
def elTexts : El → List String
  | .text s => [s]
  | .el _ _ cs => elTextsList cs

/-- All text nodes of a list of elements, in document order. -/
def elTextsList : List El → List String
  | [] => []
  | c :: cs => elTexts c ++ elTextsList cs

end

/-- The module-level `commandChips` constant of src/web/app/page.tsx
(lines 1 to 6). -/
def commandChips : List String :=
  ["exom doctor", "exom index", "exom recall", "exom lifecycle"]

/-- The module-level `pillars` constant of src/web/app/page.tsx (lines 8 to
21), as (title, body) pairs. -/
def pillars : List (String × String) :=
  [("Spatial Clarity for Agent Work",
    "See your memory system like a battlefield map: what exists, what matters, and where to act next."),
   ("Private Context, Public Velocity",
    "Keep sensitive memory local while letting Codex/OpenClaw move fast with clean, high-signal recall."),
   ("Command-Center Experience",
    "Operate from one runtime: health checks, indexing, recall, lifecycle, and benchmark confidence.")]

/-- The module-level `flow` constant of src/web/app/page.tsx (lines 23 to
36), as (title, body) pairs. -/
def flow : List (String × String) :=
  [("Brief the Mission",
    "Describe objective and constraints. ExoMind prepares context from your private knowledge graph."),
   ("Deploy Recall",
    "Run targeted recall before prompting Codex. Relevant notes surface first, noise stays buried."),
   ("Ship with Confidence",
    "Validate decisions with benchmarked retrieval quality and runtime health checks.")]

/-- The navigation bar of Home (src/web/app/page.tsx lines 47 to 66). -/
def homeNav : El :=
  .el "nav" [("className", "sticky top-0 z-30 flex items-center justify-between py-5 backdrop-blur-xl")]
    [.el "a" [("href", "#"), ("className", "text-lg font-black tracking-wide")]
      [.el "span" [("className", "bg-gradient-to-r from-[#8db4ff] to-[#7be8ff] bg-clip-text text-transparent")]
        [.text "ExoMind"]],
     .el "div" [("className", "hidden items-center gap-6 text-sm text-[#a9b9db] md:flex")]
      [.el "a" [("href", "#why"), ("className", "hover:text-white")] [.text "Why"],
       .el "a" [("href", "#flow"), ("className", "hover:text-white")] [.text "Flow"],
       .el "a" [("href", "#metrics"), ("className", "hover:text-white")] [.text "Proof"],
       .el "a" [("href", "https://github.com/zhugez/ExoMind"), ("target", "_blank"), ("rel", "noreferrer"),
                ("className", "rounded-full border border-[#7ea3ff4a] px-4 py-1.5 hover:border-[#9db9ff] hover:text-white")]
        [.text "GitHub"]]]

/-- The hero section of Home with the command chips (src/web/app/page.tsx
lines 68 to 133), including the mission console transcript. -/
def homeHero : El :=
  .el "section" [("className", "grid items-center gap-8 pb-12 pt-8 md:grid-cols-[1.08fr_.92fr] md:pt-14")]
    [.el "div" [("className", "reveal")]
      [.el "p" [("className", "mb-4 inline-flex rounded-full border border-[#7ea3ff40] bg-[#7ea3ff1a] px-3 py-1.5 text-xs text-[#c8d8ff]")]
        [.text "RTS-inspired orchestration for memory-driven AI workflows"],
       .el "h1" [("className", "text-4xl font-black leading-[1.02] tracking-tight md:text-7xl")]
        [.text "Command your", .el "br" [] [], .text "AI context", .el "br" [] [], .text "like a pro."],
       .el "p" [("className", "mt-5 max-w-xl text-base leading-relaxed text-[#afbedf] md:text-lg")]
        [.text "ExoMind turns scattered markdown knowledge into a tactical runtime for Codex and OpenClaw. Less prompt chaos, more deliberate execution."],
       .el "div" [("className", "mt-7 flex flex-wrap gap-3")]
        [.el "a" [("href", "https://github.com/zhugez/ExoMind"), ("target", "_blank"), ("rel", "noreferrer"),
                  ("className", "rounded-xl bg-gradient-to-r from-[#80a6ff] to-[#9ec1ff] px-5 py-2.5 font-semibold text-[#061127] transition hover:-translate-y-0.5")]
          [.text "Launch ExoMind"],
         .el "a" [("href", "https://github.com/zhugez/ExoMind/wiki"), ("target", "_blank"), ("rel", "noreferrer"),
                  ("className", "rounded-xl border border-[#7ea3ff47] px-5 py-2.5 font-semibold text-[#d8e4ff] transition hover:-translate-y-0.5 hover:border-[#a7c0ff]")]
          [.text "View Docs"]],
       .el "div" [("className", "mt-6 flex flex-wrap gap-2")]
        (commandChips.map fun chip =>
          .el "span" [("key", chip), ("className", "rounded-full border border-[#7ea3ff33] bg-[#0f1b34b8] px-3 py-1 text-xs text-[#bfd0f5]")]
            [.text chip])],
     .el "div" [("className", "reveal relative")]
      [.el "div" [("className", "absolute -inset-1 rounded-3xl bg-gradient-to-br from-[#87adff45] to-[#79e5ff20] blur-xl")] [],
       .el "div" [("className", "relative rounded-3xl border border-[#85abff3d] bg-[#0d162ad9] p-5 shadow-[0_30px_80px_rgba(7,20,47,.55)]")]
        [.el "div" [("className", "mb-4 flex items-center justify-between")]
          [.el "p" [("className", "text-xs uppercase tracking-[.2em] text-[#92a8d8]")] [.text "Mission Console"],
           .el "span" [("className", "rounded-full border border-[#7ea3ff42] px-2 py-0.5 text-[10px] text-[#c2d2f4]")] [.text "LIVE"]],
         .el "pre" [("className", "overflow-x-auto whitespace-pre-wrap rounded-2xl border border-[#7ea3ff2b] bg-[#0b1324] p-4 text-xs leading-6 text-[#cfe0ff] md:text-sm")]
          [.el "span" [("className", "text-[#8fa6d8]")] [.text "$ exom doctor --notes-root ./Yasna-Memory --graph .neural/graph.json"],
           .text "\n",
           .el "span" [("className", "text-[#57dfab]")] [.text "DOCTOR_OK"],
           .text "\n\n",
           .el "span" [("className", "text-[#8fa6d8]")] [.text "$ exom index --notes-root ./Yasna-Memory --out-root .neural"],
           .text "\n",
           .el "span" [("className", "text-[#57dfab]")] [.text "INDEX_OK notes=10002 nodes=10002 edges=35992"],
           .text "\n\n",
           .el "span" [("className", "text-[#8fa6d8]")] [.text "$ exom recall --query \"release workflow beta\" --topk 5 --json"],
           .text "\n",
           .el "span" [("className", "text-[#57dfab]")] [.text "\x7b\"results\":[...]\x7d"]]]]]

/-- The metrics section of Home (src/web/app/page.tsx lines 135 to 148). -/
def homeMetrics : El :=
  .el "section" [("id", "metrics"), ("className", "grid gap-3 pb-8 md:grid-cols-3")]
    [.el "article" [("className", "reveal rounded-2xl border border-[#7ea3ff35] bg-[#121d34bf] p-5")]
      [.el "p" [("className", "text-4xl font-black")] [.text "10002"],
       .el "p" [("className", "mt-1 text-sm text-[#a8b7d8]")] [.text "Notes indexed in benchmark corpus"]],
     .el "article" [("className", "reveal rounded-2xl border border-[#7ea3ff35] bg-[#121d34bf] p-5")]
      [.el "p" [("className", "text-4xl font-black")] [.text "152ms"],
       .el "p" [("className", "mt-1 text-sm text-[#a8b7d8]")] [.text "Recall p95 at 10k-note scale"]],
     .el "article" [("className", "reveal rounded-2xl border border-[#7ea3ff35] bg-[#121d34bf] p-5")]
      [.el "p" [("className", "text-4xl font-black")] [.text "1.0000"],
       .el "p" [("className", "mt-1 text-sm text-[#a8b7d8]")] [.text "Hit@1 on synthetic ground-truth set"]]]

/-- The why section of Home over `pillars` (src/web/app/page.tsx lines 150
to 164). -/
def homeWhy : El :=
  .el "section" [("id", "why"), ("className", "py-10")]
    [.el "h2" [("className", "reveal text-3xl font-extrabold tracking-tight md:text-5xl")]
      [.text "Not just memory search.", .el "br" [("className", "hidden md:block")] [],
       .text "A strategic interface for AI execution."],
     .el "div" [("className", "mt-6 grid gap-3 md:grid-cols-3")]
      (pillars.map fun p =>
        .el "article" [("key", p.1), ("className", "reveal rounded-2xl border border-[#7ea3ff30] bg-[#111b31c8] p-5")]
          [.el "h3" [("className", "text-lg font-semibold")] [.text p.1],
           .el "p" [("className", "mt-2 text-sm leading-relaxed text-[#a8b7d8]")] [.text p.2]])]

/-- The command-flow section of Home over `flow` (src/web/app/page.tsx
lines 166 to 181). -/
def homeFlow : El :=
  .el "section" [("id", "flow"), ("className", "py-8")]
    [.el "h2" [("className", "reveal text-3xl font-extrabold tracking-tight md:text-5xl")]
      [.text "How command flow works"],
     .el "p" [("className", "reveal mt-2 text-[#a8b7d8]")]
      [.text "Designed to feel like strategy gameplay, but for real product work."],
     .el "div" [("className", "mt-6 grid gap-3 md:grid-cols-3")]
      (flow.enum.map fun p =>
        .el "article" [("key", p.2.1), ("className", "reveal rounded-2xl border border-[#7ea3ff30] bg-[#101a2fc7] p-5")]
          [.el "div" [("className", "mb-3 inline-flex h-8 w-8 items-center justify-center rounded-full bg-[#7ea3ff33] text-sm font-bold")]
            [.text (toString (p.1 + 1))],
           .el "h3" [("className", "text-lg font-semibold")] [.text p.2.1],
           .el "p" [("className", "mt-2 text-sm leading-relaxed text-[#a8b7d8]")] [.text p.2.2]])]

/-- The call-to-action section of Home (src/web/app/page.tsx lines 183 to
208). -/
def homeCta : El :=
  .el "section" [("className", "py-10")]
    [.el "div" [("className", "reveal flex flex-wrap items-center justify-between gap-4 rounded-3xl border border-[#7ea3ff42] bg-gradient-to-r from-[#7ea3ff22] to-[#77ddff1d] p-6 md:p-8")]
      [.el "div" []
        [.el "p" [("className", "text-xl font-bold md:text-2xl")] [.text "Ready to orchestrate ExoMind?"],
         .el "p" [("className", "mt-1 text-sm text-[#cfdcfb]")]
          [.text "Deploy beta, wire recall into Codex, and run your workflows with tactical clarity."]],
       .el "div" [("className", "flex flex-wrap gap-3")]
        [.el "a" [("href", "https://github.com/zhugez/ExoMind/releases"), ("target", "_blank"), ("rel", "noreferrer"),
                  ("className", "rounded-xl bg-gradient-to-r from-[#80a6ff] to-[#9ec1ff] px-5 py-2.5 font-semibold text-[#061127] transition hover:-translate-y-0.5")]
          [.text "Download Beta"],
         .el "a" [("href", "https://github.com/zhugez/ExoMind/wiki/Quickstart"), ("target", "_blank"), ("rel", "noreferrer"),
                  ("className", "rounded-xl border border-[#7ea3ff47] px-5 py-2.5 font-semibold text-[#d8e4ff] transition hover:-translate-y-0.5 hover:border-[#a7c0ff]")]
          [.text "Quickstart"]]]]

/-- The exported Home component of src/web/app/page.tsx (lines 38 to 214): a
nullary function of no props building the page element tree from literals
and the three module-level constants; the Unit argument stands for its empty
props. -/
def Home (_ : Unit) : El :=
  .el "main" [("className", "relative min-h-screen overflow-x-clip bg-[#050912] text-[#eaf1ff]")]
    [.el "div" [("className", "pointer-events-none absolute inset-0 bg-[radial-gradient(1000px_420px_at_80%_-10%,rgba(86,133,255,.28)_0%,transparent_62%)]")] [],
     .el "div" [("className", "pointer-events-none absolute inset-0 opacity-30 [background-image:linear-gradient(rgba(117,161,255,.08)_1px,transparent_1px),linear-gradient(90deg,rgba(117,161,255,.08)_1px,transparent_1px)] [background-size:30px_30px]")] [],
     .el "div" [("className", "pointer-events-none absolute -left-16 top-24 h-56 w-56 rounded-full bg-[#71caff2e] blur-3xl")] [],
     .el "div" [("className", "pointer-events-none absolute -right-24 bottom-24 h-72 w-72 rounded-full bg-[#7c8dff26] blur-3xl")] [],
     .el "div" [("className", "relative z-10 mx-auto w-[min(1200px,92vw)]")]
      [homeNav, homeHero, homeMetrics, homeWhy, homeFlow, homeCta,
       .el "footer" [("className", "pb-10 text-sm text-[#8fa5d2]")]
        [.text "ExoMind © 2026 · Portable knowledge runtime for OpenClaw + Codex"]]]

/-- C9: the exported Home component is a nullary pure function: it reads
only module-level literal constants, so every invocation returns the same
element tree; the command chips, the hard-coded console transcript and the
metric figures are constant across any two renders. -/
theorem home_render_constant :
    (∀ u v : Unit, Home u = Home v) ∧
    (∀ c ∈ commandChips, c ∈ elTexts (Home ())) ∧
    "DOCTOR_OK" ∈ elTexts (Home ()) ∧
    "INDEX_OK notes=10002 nodes=10002 edges=35992" ∈ elTexts (Home ()) ∧
    "10002" ∈ elTexts (Home ()) ∧
    "152ms" ∈ elTexts (Home ()) ∧
    "1.0000" ∈ elTexts (Home ()) := by
  refine ⟨fun _ _ => rfl, ?_, ?_, ?_, ?_, ?_, ?_⟩
  · decide
  · decide
  · decide
  · decide
  · decide
  · decide

/-! ## Bootstrap script (src/scripts/bootstrap.sh)

The script runs under `set -euo pipefail`: each step echoes a banner and
runs one command; a nonzero exit status terminates the script at that step,
and only a run in which every step exits 0 reaches the final
`echo BOOTSTRAP_OK`. The sequential abort-on-failure semantics is embedded
as a fold over (banner, exit status) pairs returning the printed lines and
the script status. -/

/-- Run a sequence of (banner, exit status) steps under abort-on-failure
semantics: each step prints its banner; the first nonzero status stops the
run with that status. -/
def runSteps : List (String × Nat) → List String × Nat
  | [] => ([], 0)
  | (line, ec) :: rest =>
      if ec = 0 then
        let r := runSteps rest
        (line :: r.1, r.2)
      else ([line], ec)

/-- The four steps of src/scripts/bootstrap.sh (lines 7 to 17): the python3
version check, the pip install, the cli init and the cli doctor, each with
the exit status of its external command. -/
def bootstrapSteps (pyEc pipEc initEc doctorEc : Nat) : List (String × Nat) :=
  [("[1/4] Checking Python...", pyEc),
   ("[2/4] Installing package (user mode)...", pipEc),
   ("[3/4] Initializing skeleton...", initEc),
   ("[4/4] Running doctor...", doctorEc)]

/-- src/scripts/bootstrap.sh (lines 1 to 19): run the four steps under
`set -euo pipefail`; only a fully successful run reaches the final
`echo BOOTSTRAP_OK` (line 19). -/
def bootstrap (pyEc pipEc initEc doctorEc : Nat) : List String × Nat :=
  let r := runSteps (bootstrapSteps pyEc pipEc initEc doctorEc)
  if r.2 = 0 then (r.1 ++ ["BOOTSTRAP_OK"], 0) else r

/-- C10: bootstrap.sh prints BOOTSTRAP_OK exactly when all four preceding
steps exit with status 0: under `set -euo pipefail` any failing step
terminates the script before the marker line is reached. -/
theorem bootstrap_marker_iff_all_ok (pyEc pipEc initEc doctorEc : Nat) :
    "BOOTSTRAP_OK" ∈ (bootstrap pyEc pipEc initEc doctorEc).1 ↔
      (pyEc = 0 ∧ pipEc = 0 ∧ initEc = 0 ∧ doctorEc = 0) := by
  by_cases h1 : pyEc = 0 <;> by_cases h2 : pipEc = 0 <;>
    by_cases h3 : initEc = 0 <;> by_cases h4 : doctorEc = 0 <;>
    simp [bootstrap, bootstrapSteps, runSteps, h1, h2, h3, h4]

end ExoMind
